import Mathlib

/-!
# Driver-safety geolocation server (`src/server.js`)

A shallow embedding of the four socket listeners of `src/server.js`
(`register`, `update_location`, `drowsy_alert`, `disconnect`) together with
the two collaborators they call: the Redis geo set stored under
`REDIS_KEY_DRIVERS` and the socket.io room adapter.

* Payload fields have the JSON type the clients send: ids and alert types are
  strings, coordinates are numbers, taken as rationals; a missing
  (`undefined`) field is `none`.
* Every listener is run to completion before the next one starts.
* The Redis client is a parameter of the listeners (`Redis σ`): each command
  either returns or throws an error message.  `specRedis` is the instance
  that behaves as the GeoIndex of the specification.
-/

namespace GeoServer

/-! ## Redis geo set -/

/-- A stored member position, in the argument order of `GEOADD`. -/
structure Position where
  longitude : ℚ
  latitude : ℚ
deriving DecidableEq

/-- One row of a `GEORADIUS ... WITHCOORD` reply: `[member, [lon, lat]]`. -/
abbrev GeoRow := String × (ℚ × ℚ)

/-- The three Redis commands used by the server, all on the key
`REDIS_KEY_DRIVERS`, over a store of type `σ`.  A command either returns
(`.ok`) or rejects with an error message (`.error`), in which case the store
is not changed. -/
structure Redis (σ : Type) where
  /-- Command `redis.geoadd(REDIS_KEY_DRIVERS, longitude, latitude, member)`. -/
  geoadd : σ → ℚ → ℚ → String → Except String σ
  /-- Command `redis.georadius(REDIS_KEY_DRIVERS, longitude, latitude, radius, 'm', 'WITHCOORD')`. -/
  georadius : σ → ℚ → ℚ → ℚ → Except String (List GeoRow)
  /-- Command `redis.zrem(REDIS_KEY_DRIVERS, member)`. -/
  zrem : σ → String → Except String σ

/-- Modelled from the spec: the GeoIndex state (the Redis geo set itself is not
part of the repository): agent id ↦ position, a single row per agent. -/
abbrev GeoIndex := AList (fun _ : String => Position)

/-- Modelled from the spec: `upsert(id, lon, lat)` inserts or overwrites the
entry for id. -/
def GeoIndex.upsert (g : GeoIndex) (id : String) (lon lat : ℚ) : GeoIndex :=
  g.insert id ⟨lon, lat⟩

/-- Modelled from the spec: `remove(id)` deletes the entry if present and is a
no-op if absent. -/
def GeoIndex.remove (g : GeoIndex) (id : String) : GeoIndex :=
  g.erase id

/-- Modelled from the spec: `queryRadius(lon, lat, radiusMeters)` returns every
entry whose distance from (lon, lat) is at most the radius, the query
point's own id included.  The great-circle distance in metres is the
parameter `dist`. -/
def GeoIndex.queryRadius (dist : Position → Position → ℚ) (g : GeoIndex)
    (lon lat radius : ℚ) : List GeoRow :=
  (g.entries.filter (fun e => decide (dist ⟨lon, lat⟩ e.2 ≤ radius))).map
    (fun e => (e.1, (e.2.longitude, e.2.latitude)))

/-- Modelled from the spec: the Redis client seen as the GeoIndex of the
specification; no command fails. -/
def specRedis (dist : Position → Position → ℚ) : Redis GeoIndex where
  geoadd g lon lat id := .ok (g.upsert id lon lat)
  georadius g lon lat radius := .ok (g.queryRadius dist lon lat radius)
  zrem g id := .ok (g.remove id)

/-! ## Messages and emitted events -/

/-- Payload of `register`. -/
structure RegisterMsg where
  driverId : Option String

/-- Payload of `update_location`. -/
structure LocationMsg where
  driverId : Option String
  latitude : Option ℚ
  longitude : Option ℚ

/-- Payload of `drowsy_alert`. -/
structure AlertMsg where
  driverId : Option String
  latitude : Option ℚ
  longitude : Option ℚ
  alertType : Option String

/-- Where an event is emitted: `socket.emit` (the calling connection) or
`io.to(room).emit`. -/
inductive Target where
  | socket (socketId : String)
  | room (name : String)
deriving DecidableEq

/-- The payloads the server emits. -/
inductive Payload where
  | registered (success : Bool) (driverId : Option String) (error : Option String)
  | error (type : String) (message : String)
  | alertData (alertingDriver : String) (latitude longitude : ℚ) (alertType : String)
      (timestamp : String)
deriving DecidableEq

/-- One call of `emit`. -/
structure Emit where
  target : Target
  event : String
  payload : Payload
deriving DecidableEq

/-! ## socket.io rooms -/

/-- The room adapter: the pairs (room, socket id) of current memberships. -/
abbrev Rooms := List (String × String)

/-- Call `socket.join(room)`: the socket is added to the room (a set). -/
def join (rooms : Rooms) (room socketId : String) : Rooms :=
  if (room, socketId) ∈ rooms then rooms else (room, socketId) :: rooms

/-- A closing socket leaves every room it is in. -/
def leaveAll (rooms : Rooms) (socketId : String) : Rooms :=
  rooms.filter (fun m => decide (m.2 ≠ socketId))

/-- The sockets an emit reaches: the socket itself for `socket.emit`, every
member of the room for `io.to(room).emit`. -/
def receivers (rooms : Rooms) : Target → List String
  | .socket socketId => [socketId]
  | .room name => (rooms.filter (fun m => decide (m.1 = name))).map Prod.snd

/-! ## The listeners -/

/-- Constant `NEARBY_DISTANCE` (metres). -/
def NEARBY_DISTANCE : ℚ := 500

/-- Listener `socket.on('register')`, lines 55-70.  Takes and returns the
connection's `currentDriverId` and the rooms. -/
def register (socketId : String) (currentDriverId : Option String) (rooms : Rooms)
    (msg : RegisterMsg) : Option String × Rooms × List Emit :=
  match msg.driverId with
  | some driverId =>
    if driverId = "" then
      (currentDriverId, rooms,
        [⟨.socket socketId, "registered", .registered false none (some "Driver ID is required")⟩])
    else
      (some driverId, join rooms driverId socketId,
        [⟨.socket socketId, "registered", .registered true (some driverId) none⟩])
  | none =>
    (currentDriverId, rooms,
      [⟨.socket socketId, "registered", .registered false none (some "Driver ID is required")⟩])

/-- Listener `socket.on('update_location')`, lines 72-91. -/
def update_location {σ : Type} (R : Redis σ) (socketId : String) (db : σ)
    (msg : LocationMsg) : σ × List Emit :=
  match msg.driverId, msg.latitude, msg.longitude with
  | some driverId, some latitude, some longitude =>
    if driverId = "" ∨ latitude = 0 ∨ longitude = 0 then
      (db, [⟨.socket socketId, "error", .error "location_update" "Invalid location update data"⟩])
    else if latitude < -90 ∨ latitude > 90 ∨ longitude < -180 ∨ longitude > 180 then
      (db, [⟨.socket socketId, "error", .error "location_update" "Invalid coordinates"⟩])
    else
      match R.geoadd db longitude latitude driverId with
      | .ok db' => (db', [])
      | .error message => (db, [⟨.socket socketId, "error", .error "location_update" message⟩])
  | _, _, _ =>
    (db, [⟨.socket socketId, "error", .error "location_update" "Invalid location update data"⟩])

/-- Listener `socket.on('drowsy_alert')`, lines 93-130; `now` is
`new Date().toISOString()`. -/
def drowsy_alert {σ : Type} (R : Redis σ) (socketId : String) (db : σ)
    (msg : AlertMsg) (now : String) : σ × List Emit :=
  match msg.driverId, msg.latitude, msg.longitude, msg.alertType with
  | some driverId, some latitude, some longitude, some alertType =>
    if driverId = "" ∨ latitude = 0 ∨ longitude = 0 ∨ alertType = "" then
      (db, [⟨.socket socketId, "error", .error "drowsy_alert" "Invalid drowsy alert data"⟩])
    else
      match R.geoadd db longitude latitude driverId with
      | .error message => (db, [⟨.socket socketId, "error", .error "drowsy_alert" message⟩])
      | .ok db' =>
        match R.georadius db' longitude latitude NEARBY_DISTANCE with
        | .error message =>
          (db', [⟨.socket socketId, "error", .error "drowsy_alert" message⟩])
        | .ok nearbyDrivers =>
          (db', (nearbyDrivers.filter (fun driver => decide (driver.1 ≠ driverId))).map
            (fun driver => ⟨.room driver.1, "nearby_alert",
              .alertData driverId latitude longitude alertType now⟩))
  | _, _, _, _ =>
    (db, [⟨.socket socketId, "error", .error "drowsy_alert" "Invalid drowsy alert data"⟩])

/-- Listener `socket.on('disconnect')`, lines 133-143: nothing is emitted,
a failing `zrem` is only logged. -/
def disconnect {σ : Type} (R : Redis σ) (currentDriverId : Option String) (db : σ) :
    σ × List Emit :=
  match currentDriverId with
  | some driverId =>
    if driverId = "" then (db, [])
    else
      match R.zrem db driverId with
      | .ok db' => (db', [])
      | .error _ => (db, [])
  | none => (db, [])

/-! ## The server -/

/-- Server state: the Redis store, the socket.io rooms, and the variable
`currentDriverId` of each connection, keyed by socket id. -/
structure Server (σ : Type) where
  redis : σ
  rooms : Rooms
  currentDriverId : String → Option String

/-- What can happen on a connection. -/
inductive Event where
  | connection (socketId : String)
  | register (socketId : String) (msg : RegisterMsg)
  | update_location (socketId : String) (msg : LocationMsg)
  | drowsy_alert (socketId : String) (msg : AlertMsg) (now : String)
  | disconnect (socketId : String)

/-- One event handled by the server, with the events it emits. -/
def step {σ : Type} (R : Redis σ) (s : Server σ) : Event → Server σ × List Emit
  | .connection socketId =>
    -- line 53; a new socket is in the room named by its own id
    ({ s with rooms := join s.rooms socketId socketId,
              currentDriverId := Function.update s.currentDriverId socketId none }, [])
  | .register socketId msg =>
    let r := register socketId (s.currentDriverId socketId) s.rooms msg
    ({ s with rooms := r.2.1,
              currentDriverId := Function.update s.currentDriverId socketId r.1 }, r.2.2)
  | .update_location socketId msg =>
    let r := update_location R socketId s.redis msg
    ({ s with redis := r.1 }, r.2)
  | .drowsy_alert socketId msg now =>
    let r := drowsy_alert R socketId s.redis msg now
    ({ s with redis := r.1 }, r.2)
  | .disconnect socketId =>
    -- the socket has left its rooms when the listener runs
    let r := disconnect R (s.currentDriverId socketId) s.redis
    ({ s with redis := r.1, rooms := leaveAll s.rooms socketId }, r.2)

/-- The state after a sequence of events. -/
def run {σ : Type} (R : Redis σ) (s : Server σ) : List Event → Server σ
  | [] => s
  | ev :: evs => run R (step R s ev).1 evs

/-- The ids `nearby_alert` is emitted to, in order of emission. -/
def alertedIds (emits : List Emit) : List String :=
  emits.filterMap fun e =>
    match e.target with
    | .room name => if e.event = "nearby_alert" then some name else none
    | .socket _ => none

/-- A server with no connection, an empty index and no room. -/
def emptyServer : Server GeoIndex := ⟨∅, [], fun _ => none⟩

/-- A stand-in distance in metres for concrete scenarios: 111 km per degree
along each axis, added up. -/
def gridMetres (p q : Position) : ℚ :=
  111000 * (|p.latitude - q.latitude| + |p.longitude - q.longitude|)

/-- The test drivers 1, 2 and 4 of `src/test-client.js` after their location
updates. -/
def testIndex : GeoIndex :=
  (((∅ : GeoIndex).upsert "driver1" 77.5946 12.9716).upsert "driver2" 77.5947 12.9719).upsert
    "driver4" 77.6090 12.9850

/-- An index holding one other driver on the equator, at latitude 0 and
longitude 77.5946. -/
def equatorIndex : GeoIndex :=
  (∅ : GeoIndex).upsert "driver2" 77.5946 0

/-! ## Helper lemmas -/

theorem mem_join_self (rooms : Rooms) (room socketId : String) :
    (room, socketId) ∈ join rooms room socketId := by
  unfold join
  split
  · assumption
  · exact List.mem_cons_self _ _

theorem mem_join_of_mem (rooms : Rooms) (room socketId : String) (m : String × String)
    (h : m ∈ rooms) : m ∈ join rooms room socketId := by
  unfold join
  split
  · exact h
  · exact List.mem_cons_of_mem _ h

theorem mem_receivers_room (rooms : Rooms) (name socketId : String) :
    socketId ∈ receivers rooms (.room name) ↔ (name, socketId) ∈ rooms := by
  simp [receivers]

theorem mem_leaveAll (rooms : Rooms) (socketId : String) (m : String × String) :
    m ∈ leaveAll rooms socketId ↔ m ∈ rooms ∧ m.2 ≠ socketId := by
  simp [leaveAll]

theorem leaveAll_leaveAll (rooms : Rooms) (socketId : String) :
    leaveAll (leaveAll rooms socketId) socketId = leaveAll rooms socketId := by
  simp [leaveAll, List.filter_filter]

/-- C3: an `update_location` request with a non-empty driverId whose latitude is
outside [-90, 90] or whose longitude is outside [-180, 180] leaves the whole
server state (the GeoIndex included) as it was and emits exactly one event:
an `error` with type "location_update", to the calling connection. -/
theorem update_location_out_of_range_rejected {σ : Type} (R : Redis σ) (s : Server σ)
    (socketId driverId : String) (latitude longitude : Option ℚ)
    (_hid : driverId ≠ "")
    (hrange : (∃ la, latitude = some la ∧ (la < -90 ∨ 90 < la)) ∨
      (∃ lo, longitude = some lo ∧ (lo < -180 ∨ 180 < lo))) :
    ∃ message, step R s (.update_location socketId ⟨some driverId, latitude, longitude⟩) =
      (s, [⟨.socket socketId, "error", .error "location_update" message⟩]) := by
  cases latitude with
  | none => exact ⟨_, rfl⟩
  | some la =>
    cases longitude with
    | none => exact ⟨_, rfl⟩
    | some lo =>
      have hr : la < -90 ∨ la > 90 ∨ lo < -180 ∨ lo > 180 := by
        rcases hrange with ⟨x, hx, h⟩ | ⟨x, hx, h⟩
        · cases hx; rcases h with h | h
          · exact Or.inl h
          · exact Or.inr (Or.inl h)
        · cases hx; rcases h with h | h
          · exact Or.inr (Or.inr (Or.inl h))
          · exact Or.inr (Or.inr (Or.inr h))
      by_cases h0 : driverId = "" ∨ la = 0 ∨ lo = 0
      · refine ⟨"Invalid location update data", ?_⟩
        simp only [step, update_location, if_pos h0]
      · refine ⟨"Invalid coordinates", ?_⟩
        simp only [step, update_location, if_neg h0, if_pos hr]

/-- Witness for C3: latitude 91 is rejected. -/
theorem update_location_out_of_range_rejected_witness :
    ∃ message, step (specRedis gridMetres) ⟨testIndex, [], fun _ => none⟩
        (.update_location "s1" ⟨some "driver1", some 91, some 77.5946⟩) =
      (⟨testIndex, [], fun _ => none⟩,
        [⟨.socket "s1", "error", .error "location_update" message⟩]) :=
  update_location_out_of_range_rejected (specRedis gridMetres) ⟨testIndex, [], fun _ => none⟩
    "s1" "driver1" (some 91) (some 77.5946) (by decide)
    (Or.inl ⟨91, rfl, Or.inr (by norm_num)⟩)

/-- C6: a `register` request never changes the GeoIndex.  With a missing or
empty driverId the server state (bound ids, rooms) is unchanged and the
caller receives `registered` with success = false and an error message;
otherwise the connection becomes bound to driverId, joins its room, no other
connection is rebound, and the caller receives `registered` with success =
true and the same driverId. -/
theorem register_contract {σ : Type} (R : Redis σ) (s : Server σ) (socketId : String)
    (msg : RegisterMsg) :
    (step R s (.register socketId msg)).1.redis = s.redis ∧
    ((msg.driverId = none ∨ msg.driverId = some "") →
      step R s (.register socketId msg) =
        (s, [⟨.socket socketId, "registered",
          .registered false none (some "Driver ID is required")⟩])) ∧
    (∀ driverId, msg.driverId = some driverId → driverId ≠ "" →
      (step R s (.register socketId msg)).1.currentDriverId socketId = some driverId ∧
      socketId ∈ receivers (step R s (.register socketId msg)).1.rooms (.room driverId) ∧
      (∀ other, other ≠ socketId →
        (step R s (.register socketId msg)).1.currentDriverId other =
          s.currentDriverId other) ∧
      (step R s (.register socketId msg)).2 =
        [⟨.socket socketId, "registered", .registered true (some driverId) none⟩]) := by
  obtain ⟨d⟩ := msg
  refine ⟨rfl, ?_, ?_⟩
  · intro h
    have hreg : register socketId (s.currentDriverId socketId) s.rooms ⟨d⟩ =
        (s.currentDriverId socketId, s.rooms,
          [⟨.socket socketId, "registered",
            .registered false none (some "Driver ID is required")⟩]) := by
      rcases h with h | h <;> simp only at h <;> subst h <;> simp [register]
    simp only [step, hreg, Function.update_eq_self]
  · intro driverId hd hne
    simp only at hd
    subst hd
    have hreg : register socketId (s.currentDriverId socketId) s.rooms ⟨some driverId⟩ =
        (some driverId, join s.rooms driverId socketId,
          [⟨.socket socketId, "registered", .registered true (some driverId) none⟩]) := by
      simp [register, hne]
    simp only [step, hreg, Function.update_same]
    refine ⟨trivial, ?_, ?_, trivial⟩
    · exact (mem_receivers_room _ _ _).2 (mem_join_self _ _ _)
    · intro other ho
      exact Function.update_noteq ho _ _

/-- Witness for C6: registering "driver1" on a fresh connection. -/
theorem register_contract_witness :
    (step (specRedis gridMetres) ⟨testIndex, [], fun _ => none⟩
        (.register "s1" ⟨some "driver1"⟩)).2 =
      [⟨.socket "s1", "registered", .registered true (some "driver1") none⟩] :=
  ((register_contract (specRedis gridMetres) ⟨testIndex, [], fun _ => none⟩ "s1"
    ⟨some "driver1"⟩).2.2 "driver1" rfl (by decide)).2.2.2

theorem mem_queryRadius_upsert (dist : Position → Position → ℚ) (hdist : ∀ p, dist p p = 0)
    (idx : GeoIndex) (id : String) (lon lat radius : ℚ) (hr : 0 ≤ radius) :
    id ∈ ((idx.upsert id lon lat).queryRadius dist lon lat radius).map Prod.fst := by
  have hmem : (⟨id, ⟨lon, lat⟩⟩ : Sigma fun _ : String => Position) ∈
      (idx.upsert id lon lat).entries := by
    simp [GeoIndex.upsert, AList.insert_entries]
  simp only [GeoIndex.queryRadius, List.map_map, List.mem_map, List.mem_filter]
  exact ⟨⟨id, ⟨lon, lat⟩⟩, ⟨hmem, by simp [hdist, hr]⟩, rfl⟩

theorem nodup_queryRadius (dist : Position → Position → ℚ) (idx : GeoIndex)
    (lon lat radius : ℚ) : ((idx.queryRadius dist lon lat radius).map Prod.fst).Nodup := by
  have h : (idx.queryRadius dist lon lat radius).map Prod.fst =
      (idx.entries.filter (fun e => decide (dist ⟨lon, lat⟩ e.2 ≤ radius))).map Sigma.fst := by
    simp [GeoIndex.queryRadius, List.map_map, Function.comp_def]
  rw [h]
  exact idx.nodupKeys.sublist (List.filter_sublist _)

theorem remove_remove (idx : GeoIndex) (id : String) :
    (idx.remove id).remove id = idx.remove id := by
  apply AList.ext
  simp only [GeoIndex.remove, AList.erase]
  apply List.kerase_of_not_mem_keys
  exact List.not_mem_keys_kerase id idx.nodupKeys

/-- C1: for a `drowsy_alert` request whose four fields pass the listener's
validation, whatever the Redis client answers, no `nearby_alert` (indeed no
event at all) is emitted to the alerting driverId; on the GeoIndex the
alerts are computed from the radius query made after the sender was upserted
at the query centre, and that query result does contain the driverId. -/
theorem drowsy_alert_excludes_sender {σ : Type} (R : Redis σ)
    (dist : Position → Position → ℚ) (hdist : ∀ p, dist p p = 0)
    (socketId now driverId alertType : String) (latitude longitude : ℚ)
    (db : σ) (idx : GeoIndex)
    (hid : driverId ≠ "") (hlat : latitude ≠ 0) (hlon : longitude ≠ 0)
    (htype : alertType ≠ "") :
    (∀ e ∈ (drowsy_alert R socketId db
        ⟨some driverId, some latitude, some longitude, some alertType⟩ now).2,
      e.target ≠ .room driverId) ∧
    driverId ∉ alertedIds (drowsy_alert (specRedis dist) socketId idx
        ⟨some driverId, some latitude, some longitude, some alertType⟩ now).2 ∧
    ∃ idx' nearbyDrivers,
      (specRedis dist).geoadd idx longitude latitude driverId = .ok idx' ∧
      (specRedis dist).georadius idx' longitude latitude NEARBY_DISTANCE = .ok nearbyDrivers ∧
      driverId ∈ nearbyDrivers.map Prod.fst ∧
      (drowsy_alert (specRedis dist) socketId idx
          ⟨some driverId, some latitude, some longitude, some alertType⟩ now).2 =
        (nearbyDrivers.filter (fun driver => decide (driver.1 ≠ driverId))).map
          (fun driver => ⟨.room driver.1, "nearby_alert",
            .alertData driverId latitude longitude alertType now⟩) := by
  have hv : ¬ (driverId = "" ∨ latitude = 0 ∨ longitude = 0 ∨ alertType = "") := by
    simp [hid, hlat, hlon, htype]
  have hgen : ∀ {τ : Type} (Q : Redis τ) (d : τ), ∀ e ∈ (drowsy_alert Q socketId d
      ⟨some driverId, some latitude, some longitude, some alertType⟩ now).2,
      e.target ≠ .room driverId := by
    intro τ Q d e he
    simp only [drowsy_alert, if_neg hv] at he
    cases hadd : Q.geoadd d longitude latitude driverId with
    | error m =>
      simp only [hadd, List.mem_singleton] at he
      subst he
      simp
    | ok d' =>
      simp only [hadd] at he
      cases hrad : Q.georadius d' longitude latitude NEARBY_DISTANCE with
      | error m =>
        simp only [hrad, List.mem_singleton] at he
        subst he
        simp
      | ok rows =>
        simp only [hrad, List.mem_map, List.mem_filter] at he
        obtain ⟨row, ⟨_, hne⟩, rfl⟩ := he
        simpa using hne
  refine ⟨hgen R db, ?_, ?_⟩
  · intro hmem
    simp only [alertedIds, List.mem_filterMap] at hmem
    obtain ⟨e, he, hsome⟩ := hmem
    have := hgen (specRedis dist) idx e he
    cases ht : e.target with
    | socket sid => simp [ht] at hsome
    | room name =>
      simp only [ht] at hsome
      split at hsome
      · cases hsome
        exact this ht
      · cases hsome
  · refine ⟨idx.upsert driverId longitude latitude,
      (idx.upsert driverId longitude latitude).queryRadius dist longitude latitude
        NEARBY_DISTANCE, rfl, rfl, ?_, ?_⟩
    · exact mem_queryRadius_upsert dist hdist idx driverId longitude latitude NEARBY_DISTANCE
        (by norm_num [NEARBY_DISTANCE])
    · simp only [drowsy_alert, if_neg hv, specRedis]

theorem gridMetres_self (p : Position) : gridMetres p p = 0 := by
  simp [gridMetres]

/-- Witness for C1: driver1 of the test client alerts from its own position. -/
theorem drowsy_alert_excludes_sender_witness :
    "driver1" ∉ alertedIds (drowsy_alert (specRedis gridMetres) "s1" testIndex
        ⟨some "driver1", some 12.9716, some 77.5946, some "drowsy"⟩ "t").2 :=
  (drowsy_alert_excludes_sender (specRedis gridMetres) gridMetres gridMetres_self
    "s1" "t" "driver1" "drowsy" 12.9716 77.5946 testIndex testIndex
    (by decide) (by norm_num) (by norm_num) (by decide)).2.1

/-- The fan-out for non-zero coordinates: when the four fields pass the
presence test of line 95, the sender is upserted at (longitude, latitude),
and the emitted events are exactly one `nearby_alert` per id returned by the
500 m radius query centred there on the updated index, the sender left out:
no id occurs twice, and every payload carries alertingDriver = driverId, the
request's latitude and longitude, and its alertType. -/
theorem drowsy_alert_fanout (dist : Position → Position → ℚ)
    (socketId now driverId alertType : String) (latitude longitude : ℚ) (idx : GeoIndex)
    (hid : driverId ≠ "") (hlat : latitude ≠ 0) (hlon : longitude ≠ 0)
    (htype : alertType ≠ "") :
    (drowsy_alert (specRedis dist) socketId idx
        ⟨some driverId, some latitude, some longitude, some alertType⟩ now).1 =
      idx.upsert driverId longitude latitude ∧
    (drowsy_alert (specRedis dist) socketId idx
        ⟨some driverId, some latitude, some longitude, some alertType⟩ now).2 =
      ((((idx.upsert driverId longitude latitude).queryRadius dist longitude latitude 500).map
          Prod.fst).filter (fun id => decide (id ≠ driverId))).map
        (fun id => ⟨.room id, "nearby_alert",
          .alertData driverId latitude longitude alertType now⟩) ∧
    ((((idx.upsert driverId longitude latitude).queryRadius dist longitude latitude 500).map
        Prod.fst).filter (fun id => decide (id ≠ driverId))).Nodup := by
  have hv : ¬ (driverId = "" ∨ latitude = 0 ∨ longitude = 0 ∨ alertType = "") := by
    simp [hid, hlat, hlon, htype]
  refine ⟨?_, ?_, ?_⟩
  · simp only [drowsy_alert, if_neg hv, specRedis]
  · simp only [drowsy_alert, if_neg hv, specRedis, NEARBY_DISTANCE, List.filter_map,
      List.map_map]
    rfl
  · exact (nodup_queryRadius dist _ longitude latitude 500).filter _

/-- Witness for `drowsy_alert_fanout`: drivers at (12.9716, 77.5946),
(12.9719, 77.5947) and (12.9850, 77.6090) with the stand-in distance; an
alert from the first is sent to the second only. -/
theorem drowsy_alert_fanout_witness :
    (drowsy_alert (specRedis gridMetres) "s1" testIndex
        ⟨some "driver1", some 12.9716, some 77.5946, some "drowsy"⟩ "t").2 =
      [⟨.room "driver2", "nearby_alert", .alertData "driver1" 12.9716 77.5946 "drowsy" "t"⟩] := by
  rw [(drowsy_alert_fanout gridMetres "s1" "t" "driver1" "drowsy" 12.9716 77.5946 testIndex
    (by decide) (by norm_num) (by norm_num) (by decide)).2.1]
  simp [testIndex, GeoIndex.upsert, GeoIndex.queryRadius, gridMetres]
  norm_num [abs, List.filter_cons]
  rw [if_neg (by decide)]
  rfl

/-- The three-driver scenario for any distance that puts driver2 within 500 m
of driver1 and driver4 beyond: the alert of driver1 goes to driver2 only. -/
theorem test_scenario_fanout (dist : Position → Position → ℚ)
    (h1 : dist ⟨77.5946, 12.9716⟩ ⟨77.5946, 12.9716⟩ ≤ 500)
    (h2 : dist ⟨77.5946, 12.9716⟩ ⟨77.5947, 12.9719⟩ ≤ 500)
    (h4 : ¬ dist ⟨77.5946, 12.9716⟩ ⟨77.6090, 12.9850⟩ ≤ 500) :
    alertedIds (drowsy_alert (specRedis dist) "s1" testIndex
        ⟨some "driver1", some 12.9716, some 77.5946, some "drowsy"⟩ "t").2 = ["driver2"] := by
  have hv : ¬ ("driver1" = "" ∨ (12.9716 : ℚ) = 0 ∨ (77.5946 : ℚ) = 0 ∨ "drowsy" = "") := by
    norm_num
    decide
  simp only [drowsy_alert, if_neg hv, specRedis, NEARBY_DISTANCE, testIndex, GeoIndex.upsert,
    GeoIndex.queryRadius, AList.insert_entries]
  simp [List.kerase, List.filter_cons, h1, h2, h4, alertedIds]

/-- C5 at latitude 0 (and likewise longitude 0): a `drowsy_alert` with a
non-empty driverId and alertType and a position on the equator is in range,
yet whatever the Redis client the listener answers with an `error` of type
"drowsy_alert" and leaves the store as it was.  With driver2 indexed at the
very position of the alert, the 500 m radius query on the index with the
sender upserted returns driver1 and driver2, so the ids to alert are
driver2 alone, while the listener upserts nothing and alerts nobody. -/
theorem drowsy_alert_rejects_zero {σ : Type} (R : Redis σ) (socketId now : String) (db : σ)
    (dist : Position → Position → ℚ) (hdist : ∀ p, dist p p = 0) :
    drowsy_alert R socketId db ⟨some "driver1", some 0, some 77.5946, some "drowsy"⟩ now =
      (db, [⟨.socket socketId, "error",
        .error "drowsy_alert" "Invalid drowsy alert data"⟩]) ∧
    drowsy_alert R socketId db ⟨some "driver1", some 12.9716, some 0, some "drowsy"⟩ now =
      (db, [⟨.socket socketId, "error",
        .error "drowsy_alert" "Invalid drowsy alert data"⟩]) ∧
    ((((equatorIndex.upsert "driver1" 77.5946 0).queryRadius dist 77.5946 0 500).map
        Prod.fst).filter (fun id => decide (id ≠ "driver1"))) = ["driver2"] ∧
    (drowsy_alert (specRedis dist) socketId equatorIndex
        ⟨some "driver1", some 0, some 77.5946, some "drowsy"⟩ now).1 = equatorIndex ∧
    alertedIds (drowsy_alert (specRedis dist) socketId equatorIndex
        ⟨some "driver1", some 0, some 77.5946, some "drowsy"⟩ now).2 = [] := by
  have h : ∀ {τ : Type} (Q : Redis τ) (d : τ),
      drowsy_alert Q socketId d ⟨some "driver1", some 0, some 77.5946, some "drowsy"⟩ now =
      (d, [⟨.socket socketId, "error",
        .error "drowsy_alert" "Invalid drowsy alert data"⟩]) := by
    intro τ Q d
    simp [drowsy_alert]
  refine ⟨h R db, ?_, ?_, ?_, ?_⟩
  · simp [drowsy_alert]
  · have hne : ¬ ("driver1" = "driver2") := by decide
    have hne2 : ¬ ("driver2" = "driver1") := by decide
    simp only [equatorIndex, GeoIndex.upsert, GeoIndex.queryRadius, AList.insert_entries]
    simp [List.kerase, List.filter_cons, hdist, hne, hne2]
  · rw [h]
  · rw [h]
    simp [alertedIds]

/-- Witness for C5 at latitude 0, with the stand-in distance. -/
theorem drowsy_alert_rejects_zero_witness :
    alertedIds (drowsy_alert (specRedis gridMetres) "s1" equatorIndex
        ⟨some "driver1", some 0, some 77.5946, some "drowsy"⟩ "t").2 = [] ∧
    ((((equatorIndex.upsert "driver1" 77.5946 0).queryRadius gridMetres 77.5946 0 500).map
        Prod.fst).filter (fun id => decide (id ≠ "driver1"))) = ["driver2"] :=
  ⟨(drowsy_alert_rejects_zero (specRedis gridMetres) "s1" "t" equatorIndex gridMetres
      gridMetres_self).2.2.2.2,
    (drowsy_alert_rejects_zero (specRedis gridMetres) "s1" "t" equatorIndex gridMetres
      gridMetres_self).2.2.1⟩

/-- C7: on the GeoIndex, `disconnect` changes the index only at the id the
connection is bound to, whose entry it removes: every entry under another
id is unchanged, a connection with no bound id leaves the index unchanged,
and a second `disconnect` leaves the state reached by the first.  Whatever
the Redis client answers, `disconnect` emits nothing, and when `zrem` fails
the store is left as it was. -/
theorem disconnect_frame (dist : Position → Position → ℚ) (s : Server GeoIndex)
    (socketId : String) :
    (∀ id, s.currentDriverId socketId ≠ some id →
      (step (specRedis dist) s (.disconnect socketId)).1.redis.lookup id = s.redis.lookup id) ∧
    (∀ id, s.currentDriverId socketId = some id → id ≠ "" →
      (step (specRedis dist) s (.disconnect socketId)).1.redis = s.redis.remove id) ∧
    (s.currentDriverId socketId = none →
      (step (specRedis dist) s (.disconnect socketId)).1.redis = s.redis) ∧
    (step (specRedis dist) (step (specRedis dist) s (.disconnect socketId)).1
        (.disconnect socketId)).1 = (step (specRedis dist) s (.disconnect socketId)).1 ∧
    (∀ {σ : Type} (R : Redis σ) (t : Server σ),
      (step R t (.disconnect socketId)).2 = [] ∧
      ∀ id message, t.currentDriverId socketId = some id →
        R.zrem t.redis id = .error message →
        (step R t (.disconnect socketId)).1.redis = t.redis) := by
  refine ⟨?_, ?_, ?_, ?_, ?_⟩
  · intro id hne
    cases hc : s.currentDriverId socketId with
    | none => simp [step, disconnect, hc]
    | some d =>
      by_cases hd : d = ""
      · simp [step, disconnect, hc, hd]
      · have hid : id ≠ d := by
          intro h
          exact hne (by rw [hc, h])
        simp only [step, disconnect, hc, if_neg hd, specRedis, GeoIndex.remove]
        exact AList.lookup_erase_ne hid
  · intro id hc hd
    simp only [step, disconnect, hc, if_neg hd, specRedis]
  · intro hc
    simp [step, disconnect, hc]
  · cases hc : s.currentDriverId socketId with
    | none => simp [step, disconnect, hc, leaveAll_leaveAll]
    | some d =>
      by_cases hd : d = ""
      · simp [step, disconnect, hc, hd, leaveAll_leaveAll]
      · simp [step, disconnect, hc, hd, specRedis, leaveAll_leaveAll, remove_remove]
  · intro σ R t
    constructor
    · cases hc : t.currentDriverId socketId with
      | none => simp [step, disconnect, hc]
      | some d =>
        by_cases hd : d = ""
        · simp [step, disconnect, hc, hd]
        · cases hz : R.zrem t.redis d <;> simp [step, disconnect, hc, hd, hz]
    · intro id message hc hz
      by_cases hd : id = ""
      · simp [step, disconnect, hc, hd]
      · simp [step, disconnect, hc, hd, hz]

/-- Witness for C7: driver1 disconnects, the entry of driver2 stays. -/
theorem disconnect_frame_witness :
    (step (specRedis gridMetres) ⟨testIndex, [], fun _ => some "driver1"⟩
        (.disconnect "s1")).1.redis.lookup "driver2" = testIndex.lookup "driver2" :=
  (disconnect_frame gridMetres ⟨testIndex, [], fun _ => some "driver1"⟩ "s1").1 "driver2"
    (by decide)

/-- For non-zero coordinates in range, `update_location` on the GeoIndex is
accepted, emits nothing and writes the entry, and a radius query centred on
the same point with any radius ≥ 0 returns the driverId. -/
theorem update_location_accepts_nonzero (dist : Position → Position → ℚ)
    (hdist : ∀ p, dist p p = 0) (socketId driverId : String) (latitude longitude radius : ℚ)
    (idx : GeoIndex) (hid : driverId ≠ "") (hlat : latitude ≠ 0) (hlon : longitude ≠ 0)
    (hlat1 : -90 ≤ latitude) (hlat2 : latitude ≤ 90)
    (hlon1 : -180 ≤ longitude) (hlon2 : longitude ≤ 180) (hr : 0 ≤ radius) :
    update_location (specRedis dist) socketId idx
        ⟨some driverId, some latitude, some longitude⟩ =
      (idx.upsert driverId longitude latitude, []) ∧
    driverId ∈ ((update_location (specRedis dist) socketId idx
        ⟨some driverId, some latitude, some longitude⟩).1.queryRadius dist
          longitude latitude radius).map Prod.fst := by
  have h0 : ¬ (driverId = "" ∨ latitude = 0 ∨ longitude = 0) := by
    simp [hid, hlat, hlon]
  have h1 : ¬ (latitude < -90 ∨ latitude > 90 ∨ longitude < -180 ∨ longitude > 180) := by
    simp [not_or, hlat1, hlat2, hlon1, hlon2]
  have h : update_location (specRedis dist) socketId idx
      ⟨some driverId, some latitude, some longitude⟩ =
      (idx.upsert driverId longitude latitude, []) := by
    simp only [update_location, if_neg h0, if_neg h1, specRedis]
  refine ⟨h, ?_⟩
  rw [h]
  exact mem_queryRadius_upsert dist hdist idx driverId longitude latitude radius hr

/-- C2 at latitude 0 (and likewise longitude 0): whatever the Redis client,
an `update_location` with a non-empty driverId and latitude 0 is answered
with an `error` of type "location_update" and writes nothing, so that on an
empty GeoIndex a radius query centred on the point does not return the
driverId. -/
theorem update_location_rejects_zero {σ : Type} (R : Redis σ) (socketId driverId : String)
    (coordinate : ℚ) (db : σ) (dist : Position → Position → ℚ) (radius : ℚ) :
    update_location R socketId db ⟨some driverId, some 0, some coordinate⟩ =
      (db, [⟨.socket socketId, "error",
        .error "location_update" "Invalid location update data"⟩]) ∧
    update_location R socketId db ⟨some driverId, some coordinate, some 0⟩ =
      (db, [⟨.socket socketId, "error",
        .error "location_update" "Invalid location update data"⟩]) ∧
    driverId ∉ ((update_location (specRedis dist) socketId ∅
        ⟨some driverId, some 0, some coordinate⟩).1.queryRadius dist coordinate 0 radius).map
          Prod.fst := by
  have h : ∀ {τ : Type} (Q : Redis τ) (d : τ),
      update_location Q socketId d ⟨some driverId, some 0, some coordinate⟩ =
      (d, [⟨.socket socketId, "error",
        .error "location_update" "Invalid location update data"⟩]) := by
    intro τ Q d
    simp [update_location]
  refine ⟨h R db, ?_, ?_⟩
  · simp [update_location]
  · rw [h]
    simp [GeoIndex.queryRadius]

/-- C4 at latitude 91: the `drowsy_alert` listener does not check the range.
Whatever the Redis client, the request is passed to `geoadd`, and the outcome
is that of the commands; on the GeoIndex the sender is written at latitude 91
and no `error` is emitted. -/
theorem drowsy_alert_out_of_range_upserts {σ : Type} (R : Redis σ) (socketId now : String)
    (db : σ) (dist : Position → Position → ℚ) (idx : GeoIndex) :
    (∀ db', R.geoadd db 77.5946 91 "driver1" = .ok db' →
      (drowsy_alert R socketId db
        ⟨some "driver1", some 91, some 77.5946, some "drowsy"⟩ now).1 = db') ∧
    (drowsy_alert (specRedis dist) socketId idx
        ⟨some "driver1", some 91, some 77.5946, some "drowsy"⟩ now).1 =
      idx.upsert "driver1" 77.5946 91 ∧
    (drowsy_alert (specRedis dist) socketId idx
        ⟨some "driver1", some 91, some 77.5946, some "drowsy"⟩ now).1.lookup "driver1" =
      some ⟨77.5946, 91⟩ ∧
    ∀ e ∈ (drowsy_alert (specRedis dist) socketId idx
        ⟨some "driver1", some 91, some 77.5946, some "drowsy"⟩ now).2, e.event ≠ "error" := by
  have hv : ¬ ("driver1" = "" ∨ (91 : ℚ) = 0 ∨ (77.5946 : ℚ) = 0 ∨ "drowsy" = "") := by
    norm_num
    decide
  refine ⟨?_, ?_, ?_, ?_⟩
  · intro db' hadd
    simp only [drowsy_alert, if_neg hv, hadd]
    cases R.georadius db' 77.5946 91 NEARBY_DISTANCE <;> rfl
  · simp only [drowsy_alert, if_neg hv, specRedis]
  · simp only [drowsy_alert, if_neg hv, specRedis, GeoIndex.upsert]
    exact AList.lookup_insert _
  · intro e he
    simp only [drowsy_alert, if_neg hv, specRedis, List.mem_map] at he
    obtain ⟨row, _, rfl⟩ := he
    show "nearby_alert" ≠ "error"
    decide

/-- Witness for `update_location_accepts_nonzero`: driver2 of the test client. -/
theorem update_location_accepts_nonzero_witness :
    "driver2" ∈ ((update_location (specRedis gridMetres) "s2" ∅
        ⟨some "driver2", some 12.9719, some 77.5947⟩).1.queryRadius gridMetres
          77.5947 12.9719 0).map Prod.fst :=
  (update_location_accepts_nonzero gridMetres gridMetres_self "s2" "driver2" 12.9719 77.5947 0 ∅
    (by decide) (by norm_num) (by norm_num) (by norm_num) (by norm_num) (by norm_num)
    (by norm_num) le_rfl).2

/-- Witness for `test_scenario_fanout`, with the stand-in distance. -/
theorem test_scenario_fanout_witness :
    alertedIds (drowsy_alert (specRedis gridMetres) "s1" testIndex
        ⟨some "driver1", some 12.9716, some 77.5946, some "drowsy"⟩ "t").2 = ["driver2"] :=
  test_scenario_fanout gridMetres (by norm_num [gridMetres]) (by norm_num [gridMetres, abs])
    (by norm_num [gridMetres, abs])

/-! ## Several connections under one id -/

theorem mem_join (rooms : Rooms) (room socketId : String) (m : String × String) :
    m ∈ join rooms room socketId ↔ m = (room, socketId) ∨ m ∈ rooms := by
  unfold join
  split
  · constructor
    · exact Or.inr
    · rintro (h | h)
      · subst h; assumption
      · exact h
  · exact List.mem_cons

/-- C8 as stated fails: after S1 and then S2 registered "X", an event sent to
room "X" is not delivered to S2 only, S1 receives it too. -/
theorem second_register_keeps_first_counterexample :
    ¬ (∀ socketId ∈ receivers (run (specRedis gridMetres) emptyServer
          [.connection "S1", .register "S1" ⟨some "X"⟩,
           .connection "S2", .register "S2" ⟨some "X"⟩]).rooms (.room "X"),
        socketId = "S2") := by
  intro h
  have h1 := h "S1" (by decide)
  exact absurd h1 (by decide)

/-- C8 amended: when S1 registers X and then S2 registers the same X, S2 joins
the room of X next to S1: both are bound to X and an event sent to X
(`io.to(X).emit`) is delivered to S1 and to S2. -/
theorem second_register_joins_room {σ : Type} (R : Redis σ) (s : Server σ)
    (S1 S2 X : String) (hX : X ≠ "") :
    S1 ∈ receivers (run R s [.register S1 ⟨some X⟩, .register S2 ⟨some X⟩]).rooms (.room X) ∧
    S2 ∈ receivers (run R s [.register S1 ⟨some X⟩, .register S2 ⟨some X⟩]).rooms (.room X) ∧
    (run R s [.register S1 ⟨some X⟩, .register S2 ⟨some X⟩]).currentDriverId S1 = some X ∧
    (run R s [.register S1 ⟨some X⟩, .register S2 ⟨some X⟩]).currentDriverId S2 = some X ∧
    (∀ socketId,
      socketId ∈ receivers (run R s [.register S1 ⟨some X⟩, .register S2 ⟨some X⟩]).rooms
          (.room X) ↔
        socketId = S1 ∨ socketId = S2 ∨ socketId ∈ receivers s.rooms (.room X)) := by
  simp only [run, step, register, if_neg hX, mem_receivers_room]
  refine ⟨mem_join_of_mem _ _ _ _ (mem_join_self _ _ _), mem_join_self _ _ _, ?_, ?_, ?_⟩
  · by_cases h : S1 = S2
    · subst h; simp
    · simp [Function.update_noteq h]
  · simp
  · intro socketId
    simp only [mem_join, Prod.mk.injEq, true_and]
    tauto

/-- Witness for C8 amended. -/
theorem second_register_joins_room_witness :
    "S1" ∈ receivers (run (specRedis gridMetres) emptyServer
      [.register "S1" ⟨some "X"⟩, .register "S2" ⟨some "X"⟩]).rooms (.room "X") :=
  (second_register_joins_room (specRedis gridMetres) emptyServer "S1" "S2" "X" (by decide)).1

/-- C9 as stated fails: S1 and then S2 register "X", S2 reports the position
of X, S1 disconnects; the GeoIndex entry of X is not there any more. -/
theorem superseded_disconnect_removes_counterexample :
    ¬ ((run (specRedis gridMetres) emptyServer
          [.connection "S1", .register "S1" ⟨some "X"⟩,
           .connection "S2", .register "S2" ⟨some "X"⟩,
           .update_location "S2" ⟨some "X", some 12.9716, some 77.5946⟩,
           .disconnect "S1"]).redis.lookup "X" = some ⟨77.5946, 12.9716⟩) := by
  have hv : ¬ ("X" = "" ∨ (12.9716 : ℚ) = 0 ∨ (77.5946 : ℚ) = 0) := by
    norm_num
    decide
  have hr : ¬ ((12.9716 : ℚ) < -90 ∨ (12.9716 : ℚ) > 90 ∨ (77.5946 : ℚ) < -180 ∨
      (77.5946 : ℚ) > 180) := by
    norm_num
  have hX : ¬ ("X" = "") := by decide
  have hS : "S2" ≠ "S1" := by decide
  simp only [run, step, register, update_location, disconnect, if_neg hv, if_neg hr, if_neg hX,
    specRedis, Function.update_same, Function.update_noteq hS.symm, GeoIndex.remove,
    AList.lookup_erase]
  simp

/-- C9 amended: when S1 registers X, a different connection S2 registers the
same X, and S1 disconnects, the disconnect of S1 removes the GeoIndex entry
of X (S1 is still bound to X), whatever its position was, and takes S1 out
of the room of X, while S2 stays bound to X and in its room: S2 is still
addressable by X.  The disconnect of any connection bound to X removes the
entry of X. -/
theorem superseded_disconnect_removes (dist : Position → Position → ℚ) (s : Server GeoIndex)
    (S1 S2 X : String) (hX : X ≠ "") (hS : S1 ≠ S2) :
    (run (specRedis dist) s [.register S1 ⟨some X⟩, .register S2 ⟨some X⟩,
      .disconnect S1]).redis.lookup X = none ∧
    S2 ∈ receivers (run (specRedis dist) s [.register S1 ⟨some X⟩, .register S2 ⟨some X⟩,
      .disconnect S1]).rooms (.room X) ∧
    S1 ∉ receivers (run (specRedis dist) s [.register S1 ⟨some X⟩, .register S2 ⟨some X⟩,
      .disconnect S1]).rooms (.room X) ∧
    (run (specRedis dist) s [.register S1 ⟨some X⟩, .register S2 ⟨some X⟩,
      .disconnect S1]).currentDriverId S2 = some X ∧
    (∀ (t : Server GeoIndex) (socketId : String), t.currentDriverId socketId = some X →
      (step (specRedis dist) t (.disconnect socketId)).1.redis.lookup X = none) := by
  simp only [run, step, register, disconnect, if_neg hX, specRedis, Function.update_same,
    Function.update_noteq hS, GeoIndex.remove, mem_receivers_room, mem_leaveAll]
  refine ⟨AList.lookup_erase _ _, ⟨mem_join_self _ _ _, hS.symm⟩, ?_, trivial, ?_⟩
  · intro h
    exact h.2 rfl
  · intro t socketId ht
    simp only [ht, if_neg hX]
    exact AList.lookup_erase _ _

/-- Witness for C9 amended, with the position reported before. -/
theorem superseded_disconnect_removes_witness :
    (run (specRedis gridMetres) ⟨testIndex.upsert "X" 77.5946 12.9716, [], fun _ => none⟩
      [.register "S1" ⟨some "X"⟩, .register "S2" ⟨some "X"⟩,
        .disconnect "S1"]).redis.lookup "X" = none :=
  (superseded_disconnect_removes gridMetres
    ⟨testIndex.upsert "X" 77.5946 12.9716, [], fun _ => none⟩ "S1" "S2" "X"
    (by decide) (by decide)).1

/-- C10 as stated fails: a connection registers "A" and then "B"; an event
sent to room "A" still reaches a session, this very connection. -/
theorem rebind_keeps_old_room_counterexample :
    ¬ (receivers (run (specRedis gridMetres) emptyServer
        [.connection "S", .register "S" ⟨some "A"⟩, .register "S" ⟨some "B"⟩]).rooms
          (.room "A") = []) := by
  decide

/-- C10 amended: when one connection registers A and then B, its bound id
becomes B but it stays in the room of A, so an event sent to A still reaches
this connection; the GeoIndex is left as it was, so the entry of A, if any,
stays in place and radius queries return what they returned before. -/
theorem rebind_keeps_old_room {σ : Type} (R : Redis σ) (s : Server σ) (socketId A B : String)
    (hA : A ≠ "") (hB : B ≠ "") :
    (run R s [.register socketId ⟨some A⟩, .register socketId ⟨some B⟩]).currentDriverId
        socketId = some B ∧
    socketId ∈ receivers (run R s [.register socketId ⟨some A⟩,
      .register socketId ⟨some B⟩]).rooms (.room A) ∧
    socketId ∈ receivers (run R s [.register socketId ⟨some A⟩,
      .register socketId ⟨some B⟩]).rooms (.room B) ∧
    (run R s [.register socketId ⟨some A⟩, .register socketId ⟨some B⟩]).redis = s.redis := by
  simp only [run, step, register, if_neg hA, if_neg hB, Function.update_same,
    mem_receivers_room]
  exact ⟨trivial, mem_join_of_mem _ _ _ _ (mem_join_self _ _ _), mem_join_self _ _ _, trivial⟩

/-- Witness for C10 amended. -/
theorem rebind_keeps_old_room_witness :
    "S" ∈ receivers (run (specRedis gridMetres) emptyServer
      [.register "S" ⟨some "A"⟩, .register "S" ⟨some "B"⟩]).rooms (.room "A") :=
  (rebind_keeps_old_room (specRedis gridMetres) emptyServer "S" "A" "B" (by decide)
    (by decide)).2.1

end GeoServer
